import Mathlib

/-!
Shallow embedding of the MindFlow per-tab DSI (Digital Stress Index) engine.

The definitions below are transcribed from the background service worker
(`calculateEntropyScore`, `calculateDSIDelta`, `updateDSI`,
`handleBehaviorData`, `handleTherapyCompletion`, the `READER_MODE_STATE`
message handler, the `chrome.tabs.onRemoved` listener) and from the content
script's `BehaviorMonitor` (`calculateScrollSpeed`, `calculateClickFrequency`,
`reportBehavior`).  JavaScript numbers are modelled as rationals, timestamps
as rationals (milliseconds), and the per-tab mutable state as an explicit
`TabState` record threaded through each function.
-/

namespace MindFlow

/-- Page categories produced by `detectPageType`. -/
inductive PageType
  | social
  | news
  | video
  | document
  | shopping
  | other
deriving DecidableEq

/-- The per-tab mutable state object created by `initTabState`. -/
structure TabState where
  dsi : ℚ
  lastActivityTime : ℚ
  isTherapyActive : Bool
  isReaderModeActive : Bool
  currentLevel : ℕ
  scrollSpeed : ℚ
  clickFrequency : ℚ
  directionChanges : ℚ
  rageClickCount : ℚ
  isIdle : Bool
  pageType : PageType
  isDeepReading : Bool
  entropyScore : ℚ
  contextCoefficient : ℚ
  suggestionShown : Bool
deriving DecidableEq

/-- `initTabState`: the fresh state stored into the map for a new tab
(`lastActivityTime` is `Date.now()` at creation, passed in as `now`). -/
def initTabState (now : ℚ) : TabState :=
  { dsi := 0
    lastActivityTime := now
    isTherapyActive := false
    isReaderModeActive := false
    currentLevel := 0
    scrollSpeed := 0
    clickFrequency := 0
    directionChanges := 0
    rageClickCount := 0
    isIdle := false
    pageType := .other
    isDeepReading := false
    entropyScore := 0
    contextCoefficient := 1
    suggestionShown := false }

-- The numeric constants of `DSI_CONFIG` in the background script.
namespace DSI_CONFIG

def SCROLL_SPEED_THRESHOLD : ℚ := 2000
def SCROLL_SPEED_CHAOTIC : ℚ := 3000
def CLICK_FREQUENCY_THRESHOLD : ℚ := 3
def CLICK_FREQUENCY_CHAOTIC : ℚ := 5
def DIRECTION_CHANGE_CHAOTIC : ℚ := 2
def RAGE_CLICK_THRESHOLD : ℚ := 2
def SCROLL_INCREMENT : ℚ := 1.5
def SCROLL_CHAOTIC_INCREMENT : ℚ := 5
def CLICK_INCREMENT : ℚ := 2
def CLICK_CHAOTIC_INCREMENT : ℚ := 8
def FLOW_RECOVERY : ℚ := 1.0
def ACTIVE_RECOVERY_BASE : ℚ := 0.5
def FLOW_ZONE_MIN : ℚ := 40
def FLOW_ZONE_MAX : ℚ := 60
def DECAY_DELAY : ℚ := 2500
def DEEP_READING_THRESHOLD : ℚ := 10000
def DECAY_BASE_RATE : ℚ := 0.6
def DECAY_FACTOR : ℚ := 0.05
def THERAPY_BONUS : ℚ := 3.0
def LEVEL_1_THRESHOLD : ℚ := 35
def LEVEL_2_THRESHOLD : ℚ := 65
def LEVEL_2_SUGGEST : ℚ := 72
def LEVEL_3_THRESHOLD : ℚ := 85
def MAX_DSI : ℚ := 100
def MIN_DSI : ℚ := 0

end DSI_CONFIG

/-- `DSI_CONFIG.CONTEXT_WEIGHTS[pageType]` (every category is present, so the
`|| 1.0` fallback of `getContextCoefficient` never engages). -/
def getContextCoefficient : PageType → ℚ
  | .social => 1.3
  | .news => 1.2
  | .video => 0.6
  | .document => 0.5
  | .shopping => 1.1
  | .other => 1.0

/-- `DSI_CONFIG.DECAY_MULTIPLIERS[pageType] || 1.0`: the table only lists
video/document/shopping/other, so social and news fall back to `1.0`. -/
def decayMultiplier : PageType → ℚ
  | .video => 0.5
  | .document => 0.3
  | .shopping => 0.8
  | _ => 1.0

/-- `calculateEntropyScore`: additive disorder score, capped at 1. -/
def calculateEntropyScore (state : TabState) : ℚ :=
  let entropy : ℚ := 0
  let entropy :=
    if state.directionChanges > DSI_CONFIG.DIRECTION_CHANGE_CHAOTIC then entropy + 0.5 else entropy
  let entropy :=
    if state.rageClickCount > DSI_CONFIG.RAGE_CLICK_THRESHOLD then entropy + 0.5 else entropy
  let entropy :=
    if state.scrollSpeed > DSI_CONFIG.SCROLL_SPEED_CHAOTIC then entropy + 0.3
    else if state.scrollSpeed > DSI_CONFIG.SCROLL_SPEED_THRESHOLD then entropy + 0.1
    else entropy
  let entropy :=
    if state.clickFrequency > DSI_CONFIG.CLICK_FREQUENCY_CHAOTIC then entropy + 0.3 else entropy
  min 1 entropy

/-- `isInFlowZone`: `dsi >= FLOW_ZONE_MIN && dsi <= FLOW_ZONE_MAX`. -/
def isInFlowZone (dsi : ℚ) : Prop :=
  DSI_CONFIG.FLOW_ZONE_MIN ≤ dsi ∧ dsi ≤ DSI_CONFIG.FLOW_ZONE_MAX

instance (dsi : ℚ) : Decidable (isInFlowZone dsi) := by
  unfold isInFlowZone
  infer_instance

/-- The global interceptor at the end of `calculateDSIDelta`: while at
level 1 a negative delta may not push the DSI below the floor 25. -/
def applyLevel1Floor (state : TabState) (delta : ℚ) : ℚ :=
  if state.currentLevel = 1 ∧ delta < 0 then
    if state.dsi + delta < 25 then
      if state.dsi > 25 then -(state.dsi - 25) else 0
    else delta
  else delta

/-- `calculateDSIDelta`: returns the delta together with the state as mutated
by the function (it writes `entropyScore` and may clear/set `isIdle` and
`isDeepReading`).  `now` is `Date.now()` at the call. -/
def calculateDSIDelta (now : ℚ) (state : TabState) : ℚ × TabState :=
  let timeSinceLastActivity := now - state.lastActivityTime
  let contextCoeff := if state.contextCoefficient = 0 then 1 else state.contextCoefficient
  let state := { state with entropyScore := calculateEntropyScore state }
  -- 1. therapy mode: accelerated recovery-only decay, early return
  if state.isTherapyActive = true then
    (-(DSI_CONFIG.THERAPY_BONUS + state.dsi * DSI_CONFIG.DECAY_FACTOR), state)
  -- 2. reader mode: pull toward the target band [45, 55], early return
  else if state.isReaderModeActive = true then
    let baseDecay := DSI_CONFIG.DECAY_BASE_RATE * 0.3 * decayMultiplier state.pageType
    if 45 ≤ state.dsi ∧ state.dsi ≤ 55 then (0, state)
    else if state.dsi > 55 then (-baseDecay, state)
    else (0.2, state)
  else
    let isMeaningfulActivity := state.scrollSpeed > 50 ∨ state.clickFrequency > 0
    if isMeaningfulActivity then
      -- active branch
      let state :=
        if state.isIdle = true ∨ state.isDeepReading = true then
          { state with isIdle := false, isDeepReading := false }
        else state
      let delta :=
        if state.directionChanges > DSI_CONFIG.DIRECTION_CHANGE_CHAOTIC then
          DSI_CONFIG.SCROLL_CHAOTIC_INCREMENT * contextCoeff
        else if state.rageClickCount > DSI_CONFIG.RAGE_CLICK_THRESHOLD then
          DSI_CONFIG.CLICK_CHAOTIC_INCREMENT * contextCoeff
        else if state.scrollSpeed > DSI_CONFIG.SCROLL_SPEED_CHAOTIC then
          DSI_CONFIG.SCROLL_INCREMENT * contextCoeff
        else if state.clickFrequency > DSI_CONFIG.CLICK_FREQUENCY_THRESHOLD then
          DSI_CONFIG.CLICK_INCREMENT * contextCoeff
        else
          -- orderly activity: recovery
          let activeRecovery := DSI_CONFIG.ACTIVE_RECOVERY_BASE
          let activeRecovery := if state.dsi > 70 then activeRecovery * 1.5 else activeRecovery
          let d := if isInFlowZone state.dsi then -DSI_CONFIG.FLOW_RECOVERY else -activeRecovery
          if state.scrollSpeed > DSI_CONFIG.SCROLL_SPEED_THRESHOLD ∧
              state.scrollSpeed ≤ DSI_CONFIG.SCROLL_SPEED_CHAOTIC then
            0.5 * contextCoeff
          else d
      (applyLevel1Floor state delta, state)
    else
      -- idle branch
      if timeSinceLastActivity < DSI_CONFIG.DECAY_DELAY then
        (applyLevel1Floor state 0, state)
      else if (state.pageType = .document ∨ state.pageType = .news) ∧
          timeSinceLastActivity > DSI_CONFIG.DEEP_READING_THRESHOLD then
        let state := if state.isDeepReading = false then { state with isDeepReading := true } else state
        (applyLevel1Floor state (-0.4), state)
      else
        let decay := DSI_CONFIG.DECAY_BASE_RATE + state.dsi * DSI_CONFIG.DECAY_FACTOR
        let decay := decay * decayMultiplier state.pageType
        let decay := if isInFlowZone state.dsi then decay * 0.5 else decay
        let decay := if decay < 0.1 ∧ decay > 0 ∧ state.dsi > 0 then 0.1 else decay
        let state := if state.isIdle = false then { state with isIdle := true } else state
        (applyLevel1Floor state (-decay), state)

/-- Suggestion sub-signal kinds. -/
inductive SuggKind
  | gentle
  | strong
deriving DecidableEq

/-- `Math.max(MIN_DSI, Math.min(MAX_DSI, x))`. -/
def clampDSI (x : ℚ) : ℚ :=
  max DSI_CONFIG.MIN_DSI (min DSI_CONFIG.MAX_DSI x)

/-- The hard-coded `level1ExitThreshold` local of `updateDSI`. -/
def level1ExitThreshold : ℚ := 20

/-- The level/suggestion resolution of `updateDSI` after the score update
(reader-mode lock plus the standard threshold ladder; the therapy branch is
handled separately in `updateDSI` because it early-returns). -/
def resolveNewLevel (readerActive : Bool) (currentLevel : ℕ) (dsi : ℚ) :
    ℕ × Option SuggKind :=
  if readerActive = true then
    (if dsi > DSI_CONFIG.LEVEL_3_THRESHOLD then 3 else 2, none)
  else if dsi > DSI_CONFIG.LEVEL_3_THRESHOLD then (3, none)
  else if dsi > DSI_CONFIG.LEVEL_2_SUGGEST then (2, some .strong)
  else if dsi > DSI_CONFIG.LEVEL_2_THRESHOLD then (1, some .gentle)
  else if dsi > DSI_CONFIG.LEVEL_1_THRESHOLD then (1, none)
  else if currentLevel = 1 ∧ dsi > level1ExitThreshold then (1, none)
  else (0, none)

/-- The field tag of a `chrome.storage.local` key: the keys the engine writes
are `"dsi_<tabId>"`, `"level_<tabId>"`, `"entropy_<tabId>"`, `"inFlow_<tabId>"`,
modelled as a tag paired with the tab id. -/
inductive StorageField
  | dsi
  | level
  | entropy
  | inFlow
deriving DecidableEq

/-- A per-tab storage key, e.g. `(StorageField.entropy, 7)` for `"entropy_7"`. -/
abbrev StorageKey := StorageField × ℕ

/-- The storage keys written by the `chrome.storage.local.set` call at the end
of a normal `updateDSI` tick: `dsi_`, `level_`, `entropy_` and `inFlow_`. -/
def tickStorageKeys (tabId : ℕ) : List StorageKey :=
  [(.dsi, tabId), (.level, tabId), (.entropy, tabId), (.inFlow, tabId)]

/-- The observable outcome of one `updateDSI` tick: the new state, the
intervention level sent (if any), the suggestion computed by the threshold
ladder, the suggestion actually sent, and the storage keys persisted. -/
structure TickResult where
  state : TabState
  intervention : Option ℕ
  suggestion : Option SuggKind
  suggestionSent : Option SuggKind
  storageKeys : List StorageKey
deriving DecidableEq

/-- `updateDSI`: one tick of the Score Engine for tab `tabId` at time `now`.
The therapy branch early-returns (skipping suggestion handling, the feature
reset and the storage write, exactly as the source does). -/
def updateDSI (now : ℚ) (tabId : ℕ) (s₀ : TabState) : TickResult :=
  let delta := (calculateDSIDelta now s₀).1
  let s1 := (calculateDSIDelta now s₀).2
  -- score update, clamped to [MIN_DSI, MAX_DSI]
  let s2 := { s1 with dsi := clampDSI (s1.dsi + delta) }
  if s2.isTherapyActive = true then
    if s2.currentLevel = 3 then
      { state := s2, intervention := none, suggestion := none,
        suggestionSent := none, storageKeys := [] }
    else
      { state := { s2 with currentLevel := 3 }, intervention := some 3,
        suggestion := none, suggestionSent := none, storageKeys := [] }
  else
    let nl := resolveNewLevel s2.isReaderModeActive s2.currentLevel s2.dsi
    let s3 :=
      if nl.1 ≠ s2.currentLevel then { s2 with currentLevel := nl.1 }
      else if nl.2.isSome = true ∧ s2.suggestionShown = false then
        { s2 with suggestionShown := true }
      else s2
    let intervention := if nl.1 ≠ s2.currentLevel then some nl.1 else none
    let sent :=
      if nl.1 ≠ s2.currentLevel then none
      else if nl.2.isSome = true ∧ s2.suggestionShown = false then nl.2
      else none
    let s4 := if s3.dsi < DSI_CONFIG.LEVEL_2_THRESHOLD then { s3 with suggestionShown := false } else s3
    let s5 := { s4 with scrollSpeed := 0, clickFrequency := 0,
                        directionChanges := 0, rageClickCount := 0 }
    { state := s5, intervention := intervention, suggestion := nl.2,
      suggestionSent := sent, storageKeys := tickStorageKeys tabId }

/-- The sequence of states produced by running `updateDSI` once per entry of
`nows` (the 1 Hz timer ticks), starting from `s`. -/
def tickTrace (tabId : ℕ) (s : TabState) : List ℚ → List TabState
  | [] => []
  | now :: rest =>
    (updateDSI now tabId s).state :: tickTrace tabId (updateDSI now tabId s).state rest

/-- The `BEHAVIOR_DATA` message payload consumed by `handleBehaviorData`.
Fields the sender omitted are `none` (JavaScript `undefined`). -/
structure BehaviorData where
  scrollSpeed : Option ℚ := none
  clickFrequency : Option ℚ := none
  pageType : Option PageType := none
  directionChanges : Option ℚ := none
  rageClickCount : Option ℚ := none
deriving DecidableEq

/-- `handleBehaviorData`: folds a behavior report into the tab state.  The
function performs no validation of the incoming numbers; `scrollSpeed` and
`clickFrequency` are merged with `Math.max`, `directionChanges` and
`rageClickCount` are assigned directly, and `lastActivityTime` is set to
`Date.now()` (`now`). -/
def handleBehaviorData (now : ℚ) (data : BehaviorData) (s : TabState) : TabState :=
  let s := match data.scrollSpeed with
    | some v => { s with scrollSpeed := max s.scrollSpeed v }
    | none => s
  let s := match data.clickFrequency with
    | some v => { s with clickFrequency := max s.clickFrequency v }
    | none => s
  let s := match data.pageType with
    | some p => { s with pageType := p, contextCoefficient := getContextCoefficient p }
    | none => s
  let s := { s with lastActivityTime := now }
  let s := match data.directionChanges with
    | some v => { s with directionChanges := v }
    | none => s
  let s := match data.rageClickCount with
    | some v => { s with rageClickCount := v }
    | none => s
  s

/-- `handleTherapyCompletion`: clears the therapy flag, and only when the
current DSI exceeds 50 snaps the score to 45 and forces the level to 0. -/
def handleTherapyCompletion (s : TabState) : TabState :=
  let s := { s with isTherapyActive := false }
  if s.dsi > 50 then { s with dsi := 45, currentLevel := 0 } else s

/-- The `active === true` arm of the `READER_MODE_STATE` message handler:
sets the reader flag; if the DSI is below `LEVEL_2_THRESHOLD` it is raised to
`LEVEL_2_THRESHOLD + 5` and a level-2 intervention is sent (returned as
`some 2`), otherwise nothing else happens (`none`). -/
def readerModeSetActive (s : TabState) : TabState × Option ℕ :=
  let s := { s with isReaderModeActive := true }
  if s.dsi < DSI_CONFIG.LEVEL_2_THRESHOLD then
    ({ s with dsi := DSI_CONFIG.LEVEL_2_THRESHOLD + 5 }, some 2)
  else (s, none)

/-- The process-wide registry: the `tabStates` map, the `updateIntervals`
timer map (modelled by the set of tab ids that own a live interval), and the
set of keys present in `chrome.storage.local`. -/
structure Registry where
  tabStates : List (ℕ × TabState)
  updateIntervals : List ℕ
  storage : List StorageKey

/-- The keys passed to `chrome.storage.local.remove` by the
`chrome.tabs.onRemoved` listener: only `dsi_<tabId>` and `level_<tabId>`. -/
def onRemovedStorageKeys (tabId : ℕ) : List StorageKey :=
  [(.dsi, tabId), (.level, tabId)]

/-- The `chrome.tabs.onRemoved` listener: stops the tab's timer, evicts its
in-memory state, and removes `onRemovedStorageKeys` from storage. -/
def onTabRemoved (tabId : ℕ) (r : Registry) : Registry :=
  { tabStates := r.tabStates.filter (fun p => p.1 ≠ tabId)
    updateIntervals := r.updateIntervals.filter (fun i => i ≠ tabId)
    storage := r.storage.filter (fun k => k ∉ onRemovedStorageKeys tabId) }

-- The content script's `CONFIG` constants used by `BehaviorMonitor`.
namespace CONTENT_CONFIG

def SCROLL_WINDOW_SIZE : ℚ := 500
def CLICK_WINDOW_SIZE : ℚ := 1000

end CONTENT_CONFIG

/-- One entry of `BehaviorMonitor.scrollEvents`. -/
structure ScrollEvent where
  time : ℚ
  position : ℚ
deriving DecidableEq

/-- The state of the content script's `BehaviorMonitor`. -/
structure BehaviorMonitor where
  scrollEvents : List ScrollEvent
  clickEvents : List ℚ
  lastScrollPosition : ℚ
  lastScrollTime : ℚ
  scrollDirection : ℤ
  directionChanges : ℕ
  lastClickX : ℚ
  lastClickY : ℚ
  lastClickTime : ℚ
  rageClickCount : ℕ
deriving DecidableEq

/-- Total absolute displacement over consecutive scroll samples
(the loop in `calculateScrollSpeed`). -/
def totalScrollDistance : List ScrollEvent → ℚ
  | [] => 0
  | [_] => 0
  | a :: b :: rest => |b.position - a.position| + totalScrollDistance (b :: rest)

/-- `events[events.length - 1]` on a non-empty buffer `a :: rest`. -/
def lastScrollEvent (a : ScrollEvent) : List ScrollEvent → ScrollEvent
  | [] => a
  | b :: rest => lastScrollEvent b rest

/-- `calculateScrollSpeed` as a function of the `scrollEvents` buffer:
total displacement divided by the elapsed seconds between the first and last
sample; 0 when fewer than two samples or a non-positive time delta. -/
def scrollSpeedOfEvents (events : List ScrollEvent) : ℚ :=
  if events.length < 2 then 0
  else
    match events with
    | [] => 0
    | firstEvent :: rest =>
      let lastEvent := lastScrollEvent firstEvent rest
      let timeDelta := (lastEvent.time - firstEvent.time) / 1000
      if timeDelta ≤ 0 then 0
      else totalScrollDistance (firstEvent :: rest) / timeDelta

/-- `BehaviorMonitor.calculateScrollSpeed`. -/
def calculateScrollSpeed (m : BehaviorMonitor) : ℚ :=
  scrollSpeedOfEvents m.scrollEvents

/-- `BehaviorMonitor.calculateClickFrequency`: clicks in the window divided by
the window length in seconds. -/
def calculateClickFrequency (m : BehaviorMonitor) : ℚ :=
  (m.clickEvents.length : ℚ) / (CONTENT_CONFIG.CLICK_WINDOW_SIZE / 1000)

/-- The `BEHAVIOR_DATA` payload assembled by `reportBehavior`. -/
structure BehaviorPayload where
  scrollSpeed : ℚ
  clickFrequency : ℚ
  directionChanges : ℕ
  rageClickCount : ℕ
  timestamp : ℚ
deriving DecidableEq

/-- `BehaviorMonitor.reportBehavior` (a successful send, i.e. the runtime is
reachable and the response callback runs): if there is meaningful data
(`scrollSpeed > 0 || clickFrequency > 0`) the payload is sent and afterwards
`directionChanges` decays by one (`Math.max(0, ...)`) and `rageClickCount`
resets to 0; otherwise nothing is sent and nothing changes.  The
`scrollEvents`/`clickEvents` buffers are sliding windows pruned only by
`handleScroll`/`handleClick`, so a report leaves them untouched. -/
def reportBehavior (now : ℚ) (m : BehaviorMonitor) :
    Option BehaviorPayload × BehaviorMonitor :=
  let scrollSpeed := calculateScrollSpeed m
  let clickFrequency := calculateClickFrequency m
  if scrollSpeed > 0 ∨ clickFrequency > 0 then
    (some { scrollSpeed := scrollSpeed, clickFrequency := clickFrequency,
            directionChanges := m.directionChanges,
            rageClickCount := m.rageClickCount, timestamp := now },
     { m with directionChanges := m.directionChanges - 1, rageClickCount := 0 })
  else (none, m)

/-- The score after one tick's score update: the clamped sum of the previous
score and the tick's delta (line `state.dsi = Math.max(MIN, Math.min(MAX,
state.dsi + delta))` of `updateDSI`). -/
def tickDSI (now : ℚ) (s : TabState) : ℚ :=
  clampDSI (s.dsi + (calculateDSIDelta now s).1)

-- Concrete session states and monitors used to instantiate the theorems
-- below on explicit inputs.

/-- A quiescent standard-mode session at level 1 whose score sits exactly on
the level-1 exit threshold (20); its last activity was at time 0. -/
def exitEdgeState : TabState :=
  { initTabState 0 with dsi := 20, currentLevel := 1 }

/-- A level-1 standard-mode session with score 30, inside the hysteresis
band. -/
def holdBandState : TabState :=
  { initTabState 0 with dsi := 30, currentLevel := 1 }

/-- A session with therapy mode active and a low score. -/
def therapyLowState : TabState :=
  { initTabState 0 with isTherapyActive := true, dsi := 30, currentLevel := 3 }

/-- A session with therapy mode active and a high score. -/
def therapyHighState : TabState :=
  { initTabState 0 with isTherapyActive := true, dsi := 90, currentLevel := 3 }

/-- A session in reader mode with a mid-band score. -/
def readerMidState : TabState :=
  { initTabState 0 with isReaderModeActive := true, dsi := 50, currentLevel := 2 }

/-- A quiescent level-1 session whose score 70 lies in the gentle-suggestion
band (65, 72]. -/
def gentleBandState : TabState :=
  { initTabState 0 with dsi := 70, currentLevel := 1 }

/-- Identical to `gentleBandState` except the score 73 has crossed the
strong-suggestion sub-threshold 72. -/
def strongBandState : TabState :=
  { gentleBandState with dsi := 73 }

/-- The registry after tab 1 has run one persisting tick from a fresh state:
its state is in the map, its timer is live, and the four per-tab keys of that
tick are in storage. -/
def tickedRegistry : Registry :=
  { tabStates := [(1, (updateDSI 1000 1 (initTabState 0)).state)]
    updateIntervals := [1]
    storage := (updateDSI 1000 1 (initTabState 0)).storageKeys }

/-- A monitor that observed one scroll burst (positions 0 → 1000 px between
t=0 and t=400 ms), one click (t=100), three direction changes and two rage
clicks, and then receives no further events. -/
def burstMonitor : BehaviorMonitor :=
  { scrollEvents := [⟨0, 0⟩, ⟨400, 1000⟩]
    clickEvents := [100]
    lastScrollPosition := 1000
    lastScrollTime := 400
    scrollDirection := 1
    directionChanges := 3
    lastClickX := 5
    lastClickY := 5
    lastClickTime := 100
    rageClickCount := 2 }

/-- A `BEHAVIOR_DATA` payload carrying an out-of-range (negative) rage-click
count. -/
def negativeRageData : BehaviorData :=
  { rageClickCount := some (-3) }

-- ============================================================
-- Helper lemmas: `calculateDSIDelta` only mutates `entropyScore`, `isIdle`
-- and `isDeepReading`; the remaining fields pass through unchanged.
-- ============================================================

theorem calcDelta_dsi (now : ℚ) (s : TabState) :
    (calculateDSIDelta now s).2.dsi = s.dsi := by
  unfold calculateDSIDelta
  simp only [apply_ite (fun p : ℚ × TabState => p.2.dsi),
             apply_ite (fun st : TabState => st.dsi)]
  simp

theorem calcDelta_currentLevel (now : ℚ) (s : TabState) :
    (calculateDSIDelta now s).2.currentLevel = s.currentLevel := by
  unfold calculateDSIDelta
  simp only [apply_ite (fun p : ℚ × TabState => p.2.currentLevel),
             apply_ite (fun st : TabState => st.currentLevel)]
  simp

theorem calcDelta_isTherapyActive (now : ℚ) (s : TabState) :
    (calculateDSIDelta now s).2.isTherapyActive = s.isTherapyActive := by
  unfold calculateDSIDelta
  simp only [apply_ite (fun p : ℚ × TabState => p.2.isTherapyActive),
             apply_ite (fun st : TabState => st.isTherapyActive)]
  simp

theorem calcDelta_isReaderModeActive (now : ℚ) (s : TabState) :
    (calculateDSIDelta now s).2.isReaderModeActive = s.isReaderModeActive := by
  unfold calculateDSIDelta
  simp only [apply_ite (fun p : ℚ × TabState => p.2.isReaderModeActive),
             apply_ite (fun st : TabState => st.isReaderModeActive)]
  simp

theorem calcDelta_suggestionShown (now : ℚ) (s : TabState) :
    (calculateDSIDelta now s).2.suggestionShown = s.suggestionShown := by
  unfold calculateDSIDelta
  simp only [apply_ite (fun p : ℚ × TabState => p.2.suggestionShown),
             apply_ite (fun st : TabState => st.suggestionShown)]
  simp

-- ============================================================
-- Helper lemmas: the observable outcome of one `updateDSI` tick.
-- ============================================================

theorem updateDSI_dsi (now : ℚ) (tabId : ℕ) (s : TabState) :
    (updateDSI now tabId s).state.dsi = tickDSI now s := by
  unfold updateDSI tickDSI
  simp only [calcDelta_dsi, calcDelta_currentLevel, calcDelta_isTherapyActive,
             calcDelta_isReaderModeActive, calcDelta_suggestionShown]
  split_ifs <;> simp

theorem updateDSI_modes (now : ℚ) (tabId : ℕ) (s : TabState) :
    (updateDSI now tabId s).state.isTherapyActive = s.isTherapyActive ∧
    (updateDSI now tabId s).state.isReaderModeActive = s.isReaderModeActive := by
  unfold updateDSI
  simp only [calcDelta_dsi, calcDelta_currentLevel, calcDelta_isTherapyActive,
             calcDelta_isReaderModeActive, calcDelta_suggestionShown]
  split_ifs <;> simp [calcDelta_isTherapyActive, calcDelta_isReaderModeActive]

theorem updateDSI_therapy (now : ℚ) (tabId : ℕ) (s : TabState)
    (h : s.isTherapyActive = true) :
    (updateDSI now tabId s).state.currentLevel = 3 ∧
    (updateDSI now tabId s).suggestion = none ∧
    (updateDSI now tabId s).suggestionSent = none ∧
    (updateDSI now tabId s).storageKeys = [] := by
  unfold updateDSI
  simp only [calcDelta_dsi, calcDelta_currentLevel, calcDelta_isTherapyActive,
             calcDelta_isReaderModeActive, calcDelta_suggestionShown, h]
  split_ifs with h3 <;> simp_all [calcDelta_currentLevel]

theorem updateDSI_standard (now : ℚ) (tabId : ℕ) (s : TabState)
    (h : s.isTherapyActive = false) :
    (updateDSI now tabId s).state.currentLevel =
      (resolveNewLevel s.isReaderModeActive s.currentLevel (tickDSI now s)).1 ∧
    (updateDSI now tabId s).suggestion =
      (resolveNewLevel s.isReaderModeActive s.currentLevel (tickDSI now s)).2 ∧
    (updateDSI now tabId s).storageKeys = tickStorageKeys tabId := by
  unfold updateDSI tickDSI
  simp only [calcDelta_dsi, calcDelta_currentLevel, calcDelta_isTherapyActive,
             calcDelta_isReaderModeActive, calcDelta_suggestionShown, h]
  simp only [apply_ite (fun st : TabState => st.currentLevel)]
  split_ifs <;> simp_all

-- ============================================================
-- Helper lemmas: the standard threshold ladder `resolveNewLevel`.
-- ============================================================

theorem resolveNewLevel_hold (cl : ℕ) (d : ℚ) (h1 : level1ExitThreshold < d)
    (h2 : d ≤ DSI_CONFIG.LEVEL_1_THRESHOLD) (hcl : cl = 1) :
    resolveNewLevel false cl d = (1, none) := by
  unfold resolveNewLevel level1ExitThreshold DSI_CONFIG.LEVEL_3_THRESHOLD
    DSI_CONFIG.LEVEL_2_SUGGEST DSI_CONFIG.LEVEL_2_THRESHOLD
    DSI_CONFIG.LEVEL_1_THRESHOLD at *
  split_ifs <;> first
  | rfl
  | (exfalso; simp_all; try linarith)

theorem resolveNewLevel_exit (cl : ℕ) (d : ℚ) (hcl : cl = 1)
    (h : (resolveNewLevel false cl d).1 = 0) : d ≤ level1ExitThreshold := by
  unfold resolveNewLevel level1ExitThreshold DSI_CONFIG.LEVEL_3_THRESHOLD
    DSI_CONFIG.LEVEL_2_SUGGEST DSI_CONFIG.LEVEL_2_THRESHOLD
    DSI_CONFIG.LEVEL_1_THRESHOLD at *
  split_ifs at h <;> simp_all

theorem resolveNewLevel_gentle (cl : ℕ) (d : ℚ)
    (h1 : DSI_CONFIG.LEVEL_2_THRESHOLD < d) (h2 : d ≤ DSI_CONFIG.LEVEL_2_SUGGEST) :
    resolveNewLevel false cl d = (1, some .gentle) := by
  unfold resolveNewLevel level1ExitThreshold DSI_CONFIG.LEVEL_3_THRESHOLD
    DSI_CONFIG.LEVEL_2_SUGGEST DSI_CONFIG.LEVEL_2_THRESHOLD
    DSI_CONFIG.LEVEL_1_THRESHOLD at *
  split_ifs <;> first
  | rfl
  | (exfalso; simp_all; try linarith)

theorem resolveNewLevel_strong (cl : ℕ) (d : ℚ)
    (h1 : DSI_CONFIG.LEVEL_2_SUGGEST < d) (h2 : d ≤ DSI_CONFIG.LEVEL_3_THRESHOLD) :
    resolveNewLevel false cl d = (2, some .strong) := by
  unfold resolveNewLevel level1ExitThreshold DSI_CONFIG.LEVEL_3_THRESHOLD
    DSI_CONFIG.LEVEL_2_SUGGEST DSI_CONFIG.LEVEL_2_THRESHOLD
    DSI_CONFIG.LEVEL_1_THRESHOLD at *
  split_ifs <;> first
  | rfl
  | (exfalso; simp_all; try linarith)

theorem resolveNewLevel_reader (cl : ℕ) (d : ℚ) :
    resolveNewLevel true cl d =
      (if d > DSI_CONFIG.LEVEL_3_THRESHOLD then 3 else 2, none) := by
  unfold resolveNewLevel
  simp

/-- While level 1 holds and modes are off, a tick whose post-update score
stays strictly inside the hysteresis band (20, 35) keeps the level at 1. -/
theorem level1_osc (tabId : ℕ) (nows : List ℚ) (s : TabState)
    (ht : s.isTherapyActive = false) (hr : s.isReaderModeActive = false)
    (hl : s.currentLevel = 1)
    (hband : ∀ t ∈ tickTrace tabId s nows,
      level1ExitThreshold < t.dsi ∧ t.dsi < DSI_CONFIG.LEVEL_1_THRESHOLD) :
    ∀ t ∈ tickTrace tabId s nows, t.currentLevel = 1 := by
  induction nows generalizing s with
  | nil => intro t h; simp [tickTrace] at h
  | cons n ns ih =>
    intro t h
    have hstep : (updateDSI n tabId s).state.currentLevel = 1 := by
      have hmem : (updateDSI n tabId s).state ∈ tickTrace tabId s (n :: ns) := by
        simp [tickTrace]
      obtain ⟨hb1, hb2⟩ := hband _ hmem
      have hmain := (updateDSI_standard n tabId s ht).1
      rw [hr, hl] at hmain
      rw [updateDSI_dsi] at hb1 hb2
      rw [hmain, resolveNewLevel_hold 1 (tickDSI n s) hb1 (le_of_lt hb2) rfl]
    rcases (by simpa [tickTrace] using h : t = (updateDSI n tabId s).state ∨
        t ∈ tickTrace tabId (updateDSI n tabId s).state ns) with h' | h'
    · rw [h', hstep]
    · have hmodes := updateDSI_modes n tabId s
      refine ih (updateDSI n tabId s).state ?_ ?_ hstep ?_ t h'
      · rw [hmodes.1, ht]
      · rw [hmodes.2, hr]
      · intro u hu
        exact hband u (by simp [tickTrace, hu])

/-- Clamping is the identity on scores already inside `[MIN_DSI, MAX_DSI]`. -/
theorem clampDSI_of_mem (x : ℚ) (h1 : 0 ≤ x) (h2 : x ≤ 100) : clampDSI x = x := by
  unfold clampDSI DSI_CONFIG.MIN_DSI DSI_CONFIG.MAX_DSI
  rw [min_eq_right h2, max_eq_right h1]

/-- A quiescent tick inside the post-activity grace window has delta 0, so
the score update reduces to clamping. -/
theorem tickDSI_grace (now : ℚ) (s : TabState)
    (h1 : s.isTherapyActive = false) (h2 : s.isReaderModeActive = false)
    (h3 : s.scrollSpeed = 0) (h4 : s.clickFrequency = 0)
    (h5 : now - s.lastActivityTime < DSI_CONFIG.DECAY_DELAY) :
    tickDSI now s = clampDSI s.dsi := by
  unfold tickDSI calculateDSIDelta applyLevel1Floor
  norm_num [h1, h2, h3, h4, h5]

-- ============================================================
-- The claims.
-- ============================================================

/-- Claim C1: for every session state and every tick of the Score Engine
(`updateDSI`), the score after the tick's score update satisfies
`0 ≤ score ≤ 100` — the update clamps `score + delta` into
`[MIN_DSI, MAX_DSI]` for every reachable (indeed every) state and delta. -/
theorem score_bounded_per_tick (now : ℚ) (tabId : ℕ) (s : TabState) :
    0 ≤ (updateDSI now tabId s).state.dsi ∧
      (updateDSI now tabId s).state.dsi ≤ 100 := by
  rw [updateDSI_dsi]
  unfold tickDSI clampDSI DSI_CONFIG.MIN_DSI DSI_CONFIG.MAX_DSI
  exact ⟨le_max_left _ _, max_le (by norm_num) (min_le_left _ _)⟩

/-- Claim C2: while `isTherapyActive` is set, a tick pins the level to 3
regardless of the score, the delta is the therapy branch's accelerated decay
(showing `calculateDSIDelta` early-returned before any other mode branch),
and the tick early-returns without computing a suggestion or persisting. -/
theorem therapy_pins_level_three (now : ℚ) (tabId : ℕ) (s : TabState)
    (h : s.isTherapyActive = true) :
    (updateDSI now tabId s).state.currentLevel = 3 ∧
    (calculateDSIDelta now s).1 =
      -(DSI_CONFIG.THERAPY_BONUS + s.dsi * DSI_CONFIG.DECAY_FACTOR) ∧
    (updateDSI now tabId s).suggestion = none ∧
    (updateDSI now tabId s).storageKeys = [] := by
  obtain ⟨h1, h2, h3, h4⟩ := updateDSI_therapy now tabId s h
  refine ⟨h1, ?_, h2, h4⟩
  unfold calculateDSIDelta
  simp [h]

/-- Witness for C2 at a concrete therapy-locked session with a low score. -/
theorem therapy_pins_level_three_witness :
    (updateDSI 100 1 therapyLowState).state.currentLevel = 3 :=
  (therapy_pins_level_three 100 1 therapyLowState rfl).1

/-- Claim C3: while reader mode is active and therapy mode is not, a tick
leaves the level at least 2: exactly 3 when the post-update score exceeds
`LEVEL_3_THRESHOLD` (85), and exactly 2 otherwise. -/
theorem reader_mode_level_floor (now : ℚ) (tabId : ℕ) (s : TabState)
    (hr : s.isReaderModeActive = true) (ht : s.isTherapyActive = false) :
    2 ≤ (updateDSI now tabId s).state.currentLevel ∧
    (DSI_CONFIG.LEVEL_3_THRESHOLD < (updateDSI now tabId s).state.dsi →
      (updateDSI now tabId s).state.currentLevel = 3) ∧
    ((updateDSI now tabId s).state.dsi ≤ DSI_CONFIG.LEVEL_3_THRESHOLD →
      (updateDSI now tabId s).state.currentLevel = 2) := by
  have hmain := (updateDSI_standard now tabId s ht).1
  rw [hr, resolveNewLevel_reader] at hmain
  dsimp only at hmain
  rw [updateDSI_dsi]
  rw [hmain]
  split_ifs with hgt
  · exact ⟨by norm_num, fun _ => rfl, fun hle => absurd hgt (not_lt.mpr hle)⟩
  · exact ⟨le_refl 2, fun hlt => absurd hlt hgt, fun _ => rfl⟩

/-- Witness for C3 at a concrete reader-locked session with score 50. -/
theorem reader_mode_level_floor_witness :
    2 ≤ (updateDSI 100 1 readerMidState).state.currentLevel :=
  (reader_mode_level_floor 100 1 readerMidState rfl rfl).1

/-- Counterexample to C4 as stated: from a level-1 standard-mode session, a
tick whose post-update score is exactly 20 — not strictly below the exit
threshold — still sets the level back to 0 (the code keeps level 1 only for
`score > 20`). -/
theorem level1_exit_at_threshold_cex :
    exitEdgeState.currentLevel = 1 ∧
    (updateDSI 100 1 exitEdgeState).state.dsi = level1ExitThreshold ∧
    ¬ (updateDSI 100 1 exitEdgeState).state.dsi < level1ExitThreshold ∧
    (updateDSI 100 1 exitEdgeState).state.currentLevel = 0 := by
  have htick : tickDSI 100 exitEdgeState = 20 := by
    rw [tickDSI_grace 100 exitEdgeState rfl rfl rfl rfl
      (by norm_num [exitEdgeState, initTabState, DSI_CONFIG.DECAY_DELAY])]
    have hd20 : exitEdgeState.dsi = 20 := rfl
    rw [hd20]
    exact clampDSI_of_mem 20 (by norm_num) (by norm_num)
  have hd : (updateDSI 100 1 exitEdgeState).state.dsi = 20 := by
    rw [updateDSI_dsi, htick]
  have hres : resolveNewLevel false 1 (20 : ℚ) = (0, none) := by
    unfold resolveNewLevel level1ExitThreshold DSI_CONFIG.LEVEL_3_THRESHOLD
      DSI_CONFIG.LEVEL_2_SUGGEST DSI_CONFIG.LEVEL_2_THRESHOLD
      DSI_CONFIG.LEVEL_1_THRESHOLD
    norm_num
  have hmain := (updateDSI_standard 100 1 exitEdgeState rfl).1
  have hrd : exitEdgeState.isReaderModeActive = false := rfl
  have hcl : exitEdgeState.currentLevel = 1 := rfl
  rw [hrd, hcl, htick, hres] at hmain
  exact ⟨rfl, by rw [hd]; rfl,
    by rw [hd]; norm_num [level1ExitThreshold], hmain⟩

/-- Claim C4 (amended): in standard mode from level 1, a tick sets the level
back to 0 only if the post-update score has fallen *to or below* the exit
threshold 20 (the code exits already at score = 20, not only strictly
below); and every tick sequence whose post-update scores stay strictly
between the exit threshold (20) and the entry threshold (35) leaves the
level at 1 throughout. -/
theorem level1_hysteresis_amended (now : ℚ) (tabId : ℕ) (s : TabState)
    (ht : s.isTherapyActive = false) (hr : s.isReaderModeActive = false)
    (hl : s.currentLevel = 1) :
    ((updateDSI now tabId s).state.currentLevel = 0 →
      (updateDSI now tabId s).state.dsi ≤ level1ExitThreshold) ∧
    (∀ nows : List ℚ,
      (∀ t ∈ tickTrace tabId s nows,
        level1ExitThreshold < t.dsi ∧ t.dsi < DSI_CONFIG.LEVEL_1_THRESHOLD) →
      ∀ t ∈ tickTrace tabId s nows, t.currentLevel = 1) := by
  constructor
  · intro h0
    have hmain := (updateDSI_standard now tabId s ht).1
    rw [hr, hl] at hmain
    rw [hmain] at h0
    rw [updateDSI_dsi]
    exact resolveNewLevel_exit 1 (tickDSI now s) rfl h0
  · exact fun nows hband => level1_osc tabId nows s ht hr hl hband

/-- Witness for C4 (amended): a level-1 session with score 30 holds level 1
across a concrete quiescent tick. -/
theorem level1_hysteresis_amended_witness :
    (updateDSI 100 1 holdBandState).state.currentLevel = 1 := by
  have hd : (updateDSI 100 1 holdBandState).state.dsi = 30 := by
    rw [updateDSI_dsi, tickDSI_grace 100 holdBandState rfl rfl rfl rfl
      (by norm_num [holdBandState, initTabState, DSI_CONFIG.DECAY_DELAY])]
    have hd30 : holdBandState.dsi = 30 := rfl
    rw [hd30]
    exact clampDSI_of_mem 30 (by norm_num) (by norm_num)
  have hband : ∀ t ∈ tickTrace 1 holdBandState [100],
      level1ExitThreshold < t.dsi ∧ t.dsi < DSI_CONFIG.LEVEL_1_THRESHOLD := by
    intro t htm
    rcases (by simpa [tickTrace] using htm :
        t = (updateDSI 100 1 holdBandState).state) with rfl
    rw [hd]
    norm_num [level1ExitThreshold, DSI_CONFIG.LEVEL_1_THRESHOLD]
  exact (level1_hysteresis_amended 100 1 holdBandState rfl rfl rfl).2 [100] hband
    (updateDSI 100 1 holdBandState).state (by simp [tickTrace])

/-- Counterexample to C5 as stated: therapy completion on a session whose
score is 30 (not above 50) clears the flag but leaves the score at 30 — it
does not snap to the flow-band midpoint 45 — and leaves the level at 3. -/
theorem therapy_completion_low_score_cex :
    (handleTherapyCompletion therapyLowState).isTherapyActive = false ∧
    (handleTherapyCompletion therapyLowState).dsi = 30 ∧
    (handleTherapyCompletion therapyLowState).dsi ≠ 45 ∧
    (handleTherapyCompletion therapyLowState).currentLevel = 3 := by
  unfold handleTherapyCompletion therapyLowState initTabState
  norm_num

/-- Claim C5 (amended): `handleTherapyCompletion` always clears the therapy
flag, but the score rebate is conditional: exactly when the score at that
moment exceeds 50 the score snaps to 45 and the level is forced to 0;
otherwise score and level are left untouched. -/
theorem therapy_completion_amended (s : TabState) :
    (handleTherapyCompletion s).isTherapyActive = false ∧
    (handleTherapyCompletion s).dsi = (if s.dsi > 50 then 45 else s.dsi) ∧
    (handleTherapyCompletion s).currentLevel =
      (if s.dsi > 50 then 0 else s.currentLevel) := by
  by_cases h : s.dsi > 50 <;> simp [handleTherapyCompletion, h]

/-- Claim C6 (code bug): teardown on tab close is incomplete.  The
`tabs.onRemoved` listener does cancel the timer and evict the in-memory
state, but of the four storage keys every tick persists it removes only the
`dsi_` and `level_` keys: the `entropy_` and `inFlow_` snapshots written by
each tick survive the session. -/
theorem teardown_leaves_snapshot_keys :
    (updateDSI 1000 1 (initTabState 0)).storageKeys = tickStorageKeys 1 ∧
    (onTabRemoved 1 tickedRegistry).updateIntervals = [] ∧
    (onTabRemoved 1 tickedRegistry).tabStates = [] ∧
    (StorageField.entropy, 1) ∈ (onTabRemoved 1 tickedRegistry).storage ∧
    (StorageField.inFlow, 1) ∈ (onTabRemoved 1 tickedRegistry).storage := by
  have hkeys := (updateDSI_standard 1000 1 (initTabState 0) rfl).2.2
  refine ⟨hkeys, ?_, ?_, ?_, ?_⟩ <;>
    simp [onTabRemoved, tickedRegistry, hkeys, tickStorageKeys, onRemovedStorageKeys]

/-- Claim C8 (code bug): `handleBehaviorData` performs no validation at the
Aggregator boundary.  A report carrying the out-of-range value -3 for the
rage-click counter is not dropped: it mutates the session state (the
negative value is stored verbatim and `lastActivityTime` advances), leaving
it in the very fields the next tick's `calculateDSIDelta` reads. -/
theorem behavior_data_unvalidated :
    (handleBehaviorData 1000 negativeRageData (initTabState 0)).rageClickCount = -3 ∧
    (initTabState 0).rageClickCount = 0 ∧
    (handleBehaviorData 1000 negativeRageData (initTabState 0)).lastActivityTime = 1000 ∧
    handleBehaviorData 1000 negativeRageData (initTabState 0) ≠ initTabState 0 := by
  refine ⟨rfl, rfl, rfl, ?_⟩
  intro h
  have hf := congrArg TabState.rageClickCount h
  norm_num [handleBehaviorData, negativeRageData, initTabState] at hf

/-- Claim C10: activating reader mode via the `READER_MODE_STATE` handler
sets the reader flag and, exactly when the score is below
`LEVEL_2_THRESHOLD` (65), immediately raises it to 70 (the threshold plus 5)
and sends a level-2 intervention; a score already at or above the threshold
is left unchanged and no intervention is sent.  The handler itself never
touches the level. -/
theorem reader_activation_raises_score (s : TabState) :
    (readerModeSetActive s).1.isReaderModeActive = true ∧
    (readerModeSetActive s).1.dsi =
      (if s.dsi < DSI_CONFIG.LEVEL_2_THRESHOLD then 70 else s.dsi) ∧
    (readerModeSetActive s).2 =
      (if s.dsi < DSI_CONFIG.LEVEL_2_THRESHOLD then some 2 else none) ∧
    (readerModeSetActive s).1.currentLevel = s.currentLevel := by
  by_cases h : s.dsi < DSI_CONFIG.LEVEL_2_THRESHOLD
  all_goals simp [readerModeSetActive, h]
  all_goals norm_num [DSI_CONFIG.LEVEL_2_THRESHOLD]

-- Helper evaluations for the burst monitor.

theorem burstMonitor_scrollSpeed : calculateScrollSpeed burstMonitor = 2500 := by
  simp [calculateScrollSpeed, scrollSpeedOfEvents, totalScrollDistance,
        lastScrollEvent, burstMonitor]
  norm_num

theorem burstMonitor_clickFrequency : calculateClickFrequency burstMonitor = 1 := by
  simp [calculateClickFrequency, burstMonitor, CONTENT_CONFIG.CLICK_WINDOW_SIZE]

/-- Counterexample to C7 as stated: after a first successful report from
`burstMonitor`, a second report with no intervening events reports the same
scroll speed (2500 px/s) and click frequency (1 per second) again — not
zero — because the sample windows are pruned only when new events arrive;
only the rage count resets (to 0) and the direction count decays (3 → 2). -/
theorem second_report_not_zero_cex :
    (reportBehavior 1000 (reportBehavior 500 burstMonitor).2).1 =
      some { scrollSpeed := 2500, clickFrequency := 1, directionChanges := 2,
             rageClickCount := 0, timestamp := 1000 } ∧
    (2500 : ℚ) ≠ 0 ∧ (1 : ℚ) ≠ 0 := by
  have hs2 : ∀ dc rc, calculateScrollSpeed
      { burstMonitor with directionChanges := dc, rageClickCount := rc } = 2500 :=
    fun _ _ => burstMonitor_scrollSpeed
  have hf2 : ∀ dc rc, calculateClickFrequency
      { burstMonitor with directionChanges := dc, rageClickCount := rc } = 1 :=
    fun _ _ => burstMonitor_clickFrequency
  have hdc : burstMonitor.directionChanges = 3 := rfl
  refine ⟨?_, by norm_num, by norm_num⟩
  norm_num [reportBehavior, burstMonitor_scrollSpeed, burstMonitor_clickFrequency,
            hs2, hf2, hdc]

/-- Claim C7 (amended): with no events between two reports, the second
successful report (`reportBehavior`) carries the *same* scroll speed and
click frequency as the first — the sliding windows are pruned only when new
events arrive, never at report time — while the rage-click counter is
reported as 0 (fully reset after the first report) and the direction-change
counter as one less (partial decay), as the claim said. -/
theorem second_report_amended (n1 n2 : ℚ) (m : BehaviorMonitor)
    (p : BehaviorPayload) (h : (reportBehavior n1 m).1 = some p) :
    (reportBehavior n2 (reportBehavior n1 m).2).1 =
      some { scrollSpeed := p.scrollSpeed, clickFrequency := p.clickFrequency,
             directionChanges := m.directionChanges - 1, rageClickCount := 0,
             timestamp := n2 } := by
  have e1 : calculateScrollSpeed
      { m with directionChanges := m.directionChanges - 1, rageClickCount := 0 } =
      calculateScrollSpeed m := rfl
  have e2 : calculateClickFrequency
      { m with directionChanges := m.directionChanges - 1, rageClickCount := 0 } =
      calculateClickFrequency m := rfl
  by_cases hc : calculateScrollSpeed m > 0 ∨ calculateClickFrequency m > 0
  · unfold reportBehavior at h
    rw [if_pos hc, Option.some_inj] at h
    subst h
    simp [reportBehavior, e1, e2, hc]
  · unfold reportBehavior at h
    rw [if_neg hc] at h
    simp at h

/-- Witness for C7 (amended) at the concrete burst monitor. -/
theorem second_report_amended_witness :
    (reportBehavior 1000 (reportBehavior 500 burstMonitor).2).1 =
      some { scrollSpeed := 2500, clickFrequency := 1,
             directionChanges := burstMonitor.directionChanges - 1,
             rageClickCount := 0, timestamp := 1000 } := by
  apply second_report_amended 500 1000 burstMonitor
    { scrollSpeed := 2500, clickFrequency := 1, directionChanges := 3,
      rageClickCount := 2, timestamp := 500 }
  have hdc : burstMonitor.directionChanges = 3 := rfl
  have hrc : burstMonitor.rageClickCount = 2 := rfl
  norm_num [reportBehavior, burstMonitor_scrollSpeed, burstMonitor_clickFrequency,
            hdc, hrc]

/-- Counterexample to C9 as stated: two ticks from the same level-1
standard-mode session shape, differing only in that the post-update score
crosses the strong-suggestion sub-threshold 72 (score 70 vs 73), compute
different levels — the sub-threshold crossing itself moves the level from 1
to 2. -/
theorem strong_subthreshold_changes_level_cex :
    (updateDSI 100 1 gentleBandState).state.dsi = 70 ∧
    (updateDSI 100 1 gentleBandState).state.currentLevel = 1 ∧
    (updateDSI 100 1 gentleBandState).suggestion = some .gentle ∧
    (updateDSI 100 1 strongBandState).state.dsi = 73 ∧
    (updateDSI 100 1 strongBandState).state.currentLevel = 2 ∧
    (updateDSI 100 1 strongBandState).suggestion = some .strong := by
  have htg : tickDSI 100 gentleBandState = 70 := by
    rw [tickDSI_grace 100 gentleBandState rfl rfl rfl rfl
      (by norm_num [gentleBandState, initTabState, DSI_CONFIG.DECAY_DELAY])]
    have h70 : gentleBandState.dsi = 70 := rfl
    rw [h70]
    exact clampDSI_of_mem 70 (by norm_num) (by norm_num)
  have hts : tickDSI 100 strongBandState = 73 := by
    rw [tickDSI_grace 100 strongBandState rfl rfl rfl rfl
      (by norm_num [strongBandState, gentleBandState, initTabState,
        DSI_CONFIG.DECAY_DELAY])]
    have h73 : strongBandState.dsi = 73 := rfl
    rw [h73]
    exact clampDSI_of_mem 73 (by norm_num) (by norm_num)
  obtain ⟨hg1, hg2, _⟩ := updateDSI_standard 100 1 gentleBandState rfl
  obtain ⟨hs1, hs2, _⟩ := updateDSI_standard 100 1 strongBandState rfl
  have hrg : gentleBandState.isReaderModeActive = false := rfl
  have hrs : strongBandState.isReaderModeActive = false := rfl
  rw [hrg, htg, resolveNewLevel_gentle _ 70
    (by norm_num [DSI_CONFIG.LEVEL_2_THRESHOLD])
    (by norm_num [DSI_CONFIG.LEVEL_2_SUGGEST])] at hg1 hg2
  rw [hrs, hts, resolveNewLevel_strong _ 73
    (by norm_num [DSI_CONFIG.LEVEL_2_SUGGEST])
    (by norm_num [DSI_CONFIG.LEVEL_3_THRESHOLD])] at hs1 hs2
  exact ⟨by rw [updateDSI_dsi, htg], hg1, hg2,
         by rw [updateDSI_dsi, hts], hs1, hs2⟩

/-- Claim C9 (amended): in standard mode, level 2 is entered exactly at the
strong-suggestion sub-threshold (`LEVEL_2_SUGGEST` = 72): a tick whose
post-update score lies in (65, 72] computes level 1 with the gentle
suggestion — so the gentle sub-threshold (65) emits its sub-signal without
changing the level — while a score in (72, 85] computes level 2 with the
strong suggestion, i.e. the strong sub-threshold crossing coincides with
the level-2 entry rather than leaving the level unchanged. -/
theorem level2_entry_amended (now : ℚ) (tabId : ℕ) (s : TabState)
    (ht : s.isTherapyActive = false) (hr : s.isReaderModeActive = false) :
    (DSI_CONFIG.LEVEL_2_THRESHOLD < (updateDSI now tabId s).state.dsi →
      (updateDSI now tabId s).state.dsi ≤ DSI_CONFIG.LEVEL_2_SUGGEST →
      (updateDSI now tabId s).state.currentLevel = 1 ∧
        (updateDSI now tabId s).suggestion = some .gentle) ∧
    (DSI_CONFIG.LEVEL_2_SUGGEST < (updateDSI now tabId s).state.dsi →
      (updateDSI now tabId s).state.dsi ≤ DSI_CONFIG.LEVEL_3_THRESHOLD →
      (updateDSI now tabId s).state.currentLevel = 2 ∧
        (updateDSI now tabId s).suggestion = some .strong) := by
  obtain ⟨h1, h2, _⟩ := updateDSI_standard now tabId s ht
  rw [hr] at h1 h2
  rw [updateDSI_dsi]
  constructor
  · intro ha hb
    rw [h1, h2, resolveNewLevel_gentle _ _ ha hb]
    exact ⟨rfl, rfl⟩
  · intro ha hb
    rw [h1, h2, resolveNewLevel_strong _ _ ha hb]
    exact ⟨rfl, rfl⟩

/-- Witness for C9 (amended) at the concrete gentle-band session (score 70). -/
theorem level2_entry_amended_witness :
    (updateDSI 100 1 gentleBandState).state.currentLevel = 1 ∧
    (updateDSI 100 1 gentleBandState).suggestion = some SuggKind.gentle := by
  have htg : (updateDSI 100 1 gentleBandState).state.dsi = 70 := by
    rw [updateDSI_dsi, tickDSI_grace 100 gentleBandState rfl rfl rfl rfl
      (by norm_num [gentleBandState, initTabState, DSI_CONFIG.DECAY_DELAY])]
    have h70 : gentleBandState.dsi = 70 := rfl
    rw [h70]
    exact clampDSI_of_mem 70 (by norm_num) (by norm_num)
  exact (level2_entry_amended 100 1 gentleBandState rfl rfl).1
    (by rw [htg]; norm_num [DSI_CONFIG.LEVEL_2_THRESHOLD])
    (by rw [htg]; norm_num [DSI_CONFIG.LEVEL_2_SUGGEST])

end MindFlow
